import Mathlib

/-!
Shallow embedding of the GitAgent_Z core in Lean 4, for checking the
natural-language specification against the source.

Embedded components:
* `src/config/settings.py` — the `GitAgentSettings` fields the core reads
  (`allowed_git_commands`, `require_confirmation`, `max_iterations`).
* `src/tools/git.py` — the command gate `run_git_command` and the tools
  `git_add_files`, `git_push`, and the pending-commit-message write shared by
  `generate_commit_message` / `improve_commit_message`.
* `src/core/llm.py` — `OllamaManager.process_request`.

The operating system is abstracted by oracles: `spawn` maps a spawned command
line to its outcome, `confirm` answers interactive confirmation prompts, and
the model invocation is a function parameter.  Python exceptions are embedded
as the `Except` error branch; alongside its result each embedded function
returns the list of command lines it handed to `subprocess.run`, so that
"no process spawned" is a provable statement.
-/

/-- Single-quote character, used to build the exact Python message strings. -/
def sglQuote : String := String.singleton (Char.ofNat 39)

/-- Python `str.strip()` (as applied to captured output and generated
messages): remove leading and trailing whitespace, modelled structurally over
the character sequence. -/
def pyStrip (s : String) : String :=
  String.mk
    (((s.data.dropWhile Char.isWhitespace).reverse.dropWhile
      Char.isWhitespace).reverse)

/-- Boolean suffix test over the character sequences (used to state that a
result string ends with a given phrase). -/
def strEndsWith (s post : String) : Bool := post.data.isSuffixOf s.data

/-- Fields of `GitAgentSettings` (src/config/settings.py) that the embedded
core reads. -/
structure Settings where
  allowed_git_commands : List String
  require_confirmation : Bool
  max_iterations : Nat
deriving Repr, DecidableEq

/-- Default values of `GitAgentSettings` from src/config/settings.py. -/
def defaultSettings : Settings :=
  { allowed_git_commands :=
      ["status", "add", "commit", "push", "pull", "log", "diff", "stash"]
    require_confirmation := true
    max_iterations := 10 }

/-- Python exceptions that can escape `run_git_command`
(src/utils/exceptions.py and the built-in IndexError). -/
inductive PyExc where
  | indexError
  | unsafeOperationError (msg : String)
  | gitCommandError (command : String) (exit_code : Int) (stderr : String)
deriving Repr, DecidableEq

/-- Stringification of an exception, as Python `str(e)` produces for the
classes in src/utils/exceptions.py. -/
def PyExc.message : PyExc → String
  | .indexError => "list index out of range"
  | .unsafeOperationError m => m
  | .gitCommandError c ec err =>
      "Git command " ++ sglQuote ++ c ++ sglQuote ++ " failed with exit code " ++
        toString ec ++ ": " ++ err

/-- Outcome of one `subprocess.run` call, supplied by the environment oracle:
the process completed with an exit code and captured output, hit the
30-second timeout (`subprocess.TimeoutExpired`), or raised some other
exception. -/
inductive SpawnResult where
  | completed (returncode : Int) (stdout stderr : String)
  | timedOut
  | raised (msg : String)
deriving Repr, DecidableEq

/-- The dict returned by `run_git_command` on the success path
(src/tools/git.py lines 39-45). -/
structure GitResult where
  success : Bool
  stdout : String
  stderr : String
  returncode : Int
  command : String
deriving Repr, DecidableEq

/-- Lines 22-23 of src/tools/git.py: prepend "git" when the first element is
not already "git".  Defined only for non-empty input (the empty case raises
IndexError before this point, see `run_git_command`). -/
def normalizeCmd : List String → List String
  | [] => []
  | c0 :: rest => if c0 ≠ "git" then "git" :: c0 :: rest else c0 :: rest

/-- Line 25 of src/tools/git.py: `command[1] if len(command) > 1 else ""`. -/
def gitVerb (command : List String) : String := command.getD 1 ""

/-- Embedding of `run_git_command` (src/tools/git.py lines 16-50).
Returns the Python result (`Except.error` = an exception propagating to the
caller) paired with the list of command lines passed to `subprocess.run`. -/
def run_git_command (s : Settings) (spawn : List String → SpawnResult)
    (command : List String) : Except PyExc GitResult × List (List String) :=
  match command with
  | [] => (Except.error PyExc.indexError, [])
  | c0 :: rest =>
    let cmd := normalizeCmd (c0 :: rest)
    let git_action := gitVerb cmd
    if git_action ∉ s.allowed_git_commands then
      (Except.error (PyExc.unsafeOperationError
        ("Git command " ++ sglQuote ++ git_action ++ sglQuote ++ " not allowed")), [])
    else
      match spawn cmd with
      | SpawnResult.completed rc out err =>
          (Except.ok
            { success := rc == 0
              stdout := pyStrip out
              stderr := pyStrip err
              returncode := rc
              command := String.intercalate " " cmd }, [cmd])
      | SpawnResult.timedOut =>
          (Except.error (PyExc.gitCommandError
            (String.intercalate " " cmd) (-1) "Command timed out"), [cmd])
      | SpawnResult.raised m =>
          (Except.error (PyExc.gitCommandError
            (String.intercalate " " cmd) (-1) m), [cmd])

/-- A spawn oracle whose processes always complete successfully with empty
output. -/
def spawnOk : List String → SpawnResult := fun _ => SpawnResult.completed 0 "" ""

/-- A spawn oracle whose processes always hit the timeout. -/
def spawnTimeout : List String → SpawnResult := fun _ => SpawnResult.timedOut

/-- C10: calling `run_git_command` with an empty command list raises an
unhandled IndexError (`command[0]` at line 22 of src/tools/git.py) before
the allowlist is consulted (the result is the same for every `Settings`)
and before any subprocess is spawned (the spawned list is empty, for every
spawn oracle). -/
theorem C10_empty_command_raises_index_error
    (s : Settings) (spawn : List String → SpawnResult) :
    run_git_command s spawn [] = (Except.error PyExc.indexError, []) := by
  rfl

/-- C1 (counterexample): with the default allowlist, the request
`["git", "clone"]` has a disallowed verb; the command gate does not return
any outcome value at all (so in particular it returns no `allowed=false`
outcome) — it raises `UnsafeOperationError` instead. -/
theorem C1_counterexample :
    ¬ ∃ r : GitResult,
      (run_git_command defaultSettings spawnOk ["git", "clone"]).1 =
        Except.ok r := by
  rintro ⟨r, hr⟩
  have h : (run_git_command defaultSettings spawnOk ["git", "clone"]).1 =
      Except.error (PyExc.unsafeOperationError
        ("Git command " ++ sglQuote ++ "clone" ++ sglQuote ++ " not allowed")) := by
    rfl
  rw [h] at hr
  exact Except.noConfusion hr

/-- C1 (amended): for every non-empty requested command whose primary git
verb is not in `settings.allowed_git_commands`, `run_git_command` rejects the
request by raising `UnsafeOperationError` (not by returning an outcome) and
spawns no subprocess. -/
theorem C1_disallowed_verb_raises_and_never_spawns
    (s : Settings) (spawn : List String → SpawnResult) (command : List String)
    (hne : command ≠ [])
    (hv : gitVerb (normalizeCmd command) ∉ s.allowed_git_commands) :
    run_git_command s spawn command =
      (Except.error (PyExc.unsafeOperationError
        ("Git command " ++ sglQuote ++ gitVerb (normalizeCmd command) ++
          sglQuote ++ " not allowed")), []) := by
  match command with
  | [] => exact absurd rfl hne
  | c0 :: rest => simp [run_git_command, hv]

/-- C1 (witness): the amended theorem applied to the concrete request
`["git", "clone"]` under the default settings. -/
theorem C1_witness :
    run_git_command defaultSettings spawnOk ["git", "clone"] =
      (Except.error (PyExc.unsafeOperationError
        ("Git command " ++ sglQuote ++ gitVerb (normalizeCmd ["git", "clone"]) ++
          sglQuote ++ " not allowed")), []) :=
  C1_disallowed_verb_raises_and_never_spawns defaultSettings spawnOk
    ["git", "clone"] (by decide) (by decide)

/-- C2 (counterexample): with the verb "status" allowed but the subprocess
hitting the timeout, `run_git_command` does not surface the failure as
outcome fields: it returns no outcome value (it raises `GitCommandError`). -/
theorem C2_counterexample :
    ¬ ∃ r : GitResult,
      (run_git_command defaultSettings spawnTimeout ["status"]).1 =
        Except.ok r := by
  rintro ⟨r, hr⟩
  have h : (run_git_command defaultSettings spawnTimeout ["status"]).1 =
      Except.error (PyExc.gitCommandError "git status" (-1) "Command timed out") := by
    rfl
  rw [h] at hr
  exact Except.noConfusion hr

/-- C2 (amended): `run_git_command` raises an exception to its caller on
every failure mode — disallowed verb, timeout, and subprocess error — and
returns an outcome value exactly when the verb is allowed and the spawned
process runs to completion. -/
theorem C2_returns_iff_allowed_and_completed
    (s : Settings) (spawn : List String → SpawnResult) (command : List String)
    (hne : command ≠ []) :
    (∃ r, (run_git_command s spawn command).1 = Except.ok r) ↔
      (gitVerb (normalizeCmd command) ∈ s.allowed_git_commands ∧
        ∃ rc out err,
          spawn (normalizeCmd command) = SpawnResult.completed rc out err) := by
  match command with
  | [] => exact absurd rfl hne
  | c0 :: rest =>
    by_cases hv : gitVerb (normalizeCmd (c0 :: rest)) ∈ s.allowed_git_commands
    · cases hsp : spawn (normalizeCmd (c0 :: rest)) with
      | completed rc out err => simp [run_git_command, hv, hsp]
      | timedOut => simp [run_git_command, hv, hsp]
      | raised m => simp [run_git_command, hv, hsp]
    · simp [run_git_command, hv]

/-- C2 (witness): the amended theorem applied to the concrete request
`["status"]` with an oracle whose process completes. -/
theorem C2_witness :
    (∃ r, (run_git_command defaultSettings spawnOk ["status"]).1 = Except.ok r) ↔
      (gitVerb (normalizeCmd ["status"]) ∈ defaultSettings.allowed_git_commands ∧
        ∃ rc out err,
          spawnOk (normalizeCmd ["status"]) = SpawnResult.completed rc out err) :=
  C2_returns_iff_allowed_and_completed defaultSettings spawnOk ["status"]
    (by decide)

/-- C5 (counterexample): when the allowed request `["git", "push"]` hits the
subprocess timeout, `run_git_command` does not return any outcome (so in
particular no outcome with `timed_out=true`, `exit_code=-1`): it raises
`GitCommandError`. -/
theorem C5_counterexample :
    ¬ ∃ r : GitResult,
      (run_git_command defaultSettings spawnTimeout ["git", "push"]).1 =
        Except.ok r := by
  rintro ⟨r, hr⟩
  have h : (run_git_command defaultSettings spawnTimeout ["git", "push"]).1 =
      Except.error (PyExc.gitCommandError "git push" (-1) "Command timed out") := by
    rfl
  rw [h] at hr
  exact Except.noConfusion hr

/-- C5 (amended): when the spawned subprocess exceeds the 30-second timeout,
`run_git_command` raises `GitCommandError` carrying exit code `-1` and the
message "Command timed out" (rather than returning an outcome value). -/
theorem C5_timeout_raises_gitcommanderror
    (s : Settings) (spawn : List String → SpawnResult) (command : List String)
    (hne : command ≠ [])
    (hv : gitVerb (normalizeCmd command) ∈ s.allowed_git_commands)
    (ht : spawn (normalizeCmd command) = SpawnResult.timedOut) :
    run_git_command s spawn command =
      (Except.error (PyExc.gitCommandError
        (String.intercalate " " (normalizeCmd command)) (-1) "Command timed out"),
       [normalizeCmd command]) := by
  match command with
  | [] => exact absurd rfl hne
  | c0 :: rest => simp [run_git_command, hv, ht]

/-- C5 (witness): the amended theorem applied to the concrete request
`["git", "push"]` with a timing-out spawn oracle. -/
theorem C5_witness :
    run_git_command defaultSettings spawnTimeout ["git", "push"] =
      (Except.error (PyExc.gitCommandError
        (String.intercalate " " (normalizeCmd ["git", "push"])) (-1)
        "Command timed out"),
       [normalizeCmd ["git", "push"]]) :=
  C5_timeout_raises_gitcommanderror defaultSettings spawnTimeout ["git", "push"]
    (by decide) (by decide) rfl

/-- C9: whenever `run_git_command` spawns a subprocess for a non-empty
request (and the allowlist does not contain the empty verb, as the default
allowlist does not), the spawned command line starts with "git" followed by
a verb from `settings.allowed_git_commands`: the gate prepends "git" when
missing and can only ever execute allowlisted git commands. -/
theorem C9_spawned_commands_are_allowlisted_git
    (s : Settings) (spawn : List String → SpawnResult) (command : List String)
    (hne : command ≠ [])
    (hempty : "" ∉ s.allowed_git_commands) :
    (run_git_command s spawn command).2 = [] ∨
      ∃ verb rest2, (run_git_command s spawn command).2 = ["git" :: verb :: rest2] ∧
        verb ∈ s.allowed_git_commands := by
  match command with
  | [] => exact absurd rfl hne
  | c0 :: rest =>
    by_cases hv : gitVerb (normalizeCmd (c0 :: rest)) ∈ s.allowed_git_commands
    · right
      have h2 : ∃ verb rest2,
          normalizeCmd (c0 :: rest) = "git" :: verb :: rest2 ∧
            verb ∈ s.allowed_git_commands := by
        by_cases hg : c0 = "git"
        · subst hg
          cases rest with
          | nil =>
            exfalso
            apply hempty
            simpa [normalizeCmd, gitVerb, List.getD] using hv
          | cons r0 rs =>
            refine ⟨r0, rs, by simp [normalizeCmd], ?_⟩
            simpa [normalizeCmd, gitVerb, List.getD] using hv
        · refine ⟨c0, rest, by simp [normalizeCmd, hg], ?_⟩
          simpa [normalizeCmd, gitVerb, List.getD, hg] using hv
      obtain ⟨verb, rest2, hcmd, hverb⟩ := h2
      have hspawned : (run_git_command s spawn (c0 :: rest)).2 =
          [normalizeCmd (c0 :: rest)] := by
        cases hsp : spawn (normalizeCmd (c0 :: rest)) with
        | completed rc out err => simp [run_git_command, hv, hsp]
        | timedOut => simp [run_git_command, hv, hsp]
        | raised m => simp [run_git_command, hv, hsp]
      exact ⟨verb, rest2, by rw [hspawned, hcmd], hverb⟩
    · left
      simp [run_git_command, hv]

/-- C9 (witness): the theorem applied to the concrete request `["status"]`
(no leading "git", exercising the prepending) under the default settings. -/
theorem C9_witness :
    (run_git_command defaultSettings spawnOk ["status"]).2 = [] ∨
      ∃ verb rest2,
        (run_git_command defaultSettings spawnOk ["status"]).2 =
          ["git" :: verb :: rest2] ∧
        verb ∈ defaultSettings.allowed_git_commands :=
  C9_spawned_commands_are_allowlisted_git defaultSettings spawnOk ["status"]
    (by decide) (by decide)

/-- Embedding of the tool `git_add_files` (src/tools/git.py lines 284-299):
when `files = "."` and confirmation is required, an interactive confirmation
guards the bulk staging; the body's try/except turns any exception from
`run_git_command` into an "Error: ..." string.  Returns the tool's result
string paired with the spawned command lines. -/
def git_add_files (s : Settings) (confirm : String → Bool)
    (spawn : List String → SpawnResult) (files : String) :
    String × List (List String) :=
  let proceed :=
    match run_git_command s spawn ["git", "add", files] with
    | (Except.ok r, sp) =>
        (if r.success then "Successfully added " ++ files ++ " to staging area"
         else "Error adding files: " ++ r.stderr, sp)
    | (Except.error e, sp) => ("Error: " ++ e.message, sp)
  if files = "." ∧ s.require_confirmation = true then
    if confirm "Add all files to staging area?" = false then
      ("Operation cancelled by user", [])
    else proceed
  else proceed

/-- Embedding of the tool `git_push` (src/tools/git.py lines 316-334): the
push command is built from remote and (optional, Python-truthy) branch; a
confirmation guards every push when required. -/
def git_push (s : Settings) (confirm : String → Bool)
    (spawn : List String → SpawnResult) (remote branch : String) :
    String × List (List String) :=
  let cmd := if branch ≠ "" then ["git", "push", remote, branch]
             else ["git", "push", remote]
  let proceed :=
    match run_git_command s spawn cmd with
    | (Except.ok r, sp) =>
        (if r.success then "Successfully pushed to " ++ remote
         else "Error pushing: " ++ r.stderr, sp)
    | (Except.error e, sp) => ("Error: " ++ e.message, sp)
  if s.require_confirmation = true then
    if confirm ("Push to " ++ remote ++
        (if branch ≠ "" then "/" ++ branch else "") ++ "?") = false then
      ("Push cancelled by user", [])
    else proceed
  else proceed

/-- A confirmation oracle that declines every prompt. -/
def confirmNo : String → Bool := fun _ => false

/-- C3: when `settings.require_confirmation` is true and the interactive
confirmation declines, the destructive operations — `git_push` always, and
`git_add_files` with `files="."` — return a result whose text states the
operation was cancelled by user, and spawn no subprocess. -/
theorem C3_confirmation_declined_cancels_and_never_spawns
    (s : Settings) (confirm : String → Bool) (spawn : List String → SpawnResult)
    (remote branch : String)
    (hrc : s.require_confirmation = true)
    (hconf : ∀ p, confirm p = false) :
    (strEndsWith (git_add_files s confirm spawn ".").1 "cancelled by user" = true ∧
      (git_add_files s confirm spawn ".").2 = []) ∧
    (strEndsWith (git_push s confirm spawn remote branch).1 "cancelled by user" = true ∧
      (git_push s confirm spawn remote branch).2 = []) := by
  have h1 : git_add_files s confirm spawn "." =
      ("Operation cancelled by user", []) := by
    simp [git_add_files, hrc, hconf]
  have h2 : git_push s confirm spawn remote branch =
      ("Push cancelled by user", []) := by
    simp [git_push, hrc, hconf]
  rw [h1, h2]
  exact ⟨⟨by decide, rfl⟩, ⟨by decide, rfl⟩⟩

/-- C3 (witness): the theorem at the default settings (confirmation required)
with a declining confirmation oracle, remote "origin" and no branch. -/
theorem C3_witness :
    (strEndsWith (git_add_files defaultSettings confirmNo spawnOk ".").1
        "cancelled by user" = true ∧
      (git_add_files defaultSettings confirmNo spawnOk ".").2 = []) ∧
    (strEndsWith (git_push defaultSettings confirmNo spawnOk "origin" "").1
        "cancelled by user" = true ∧
      (git_push defaultSettings confirmNo spawnOk "origin" "").2 = []) :=
  C3_confirmation_declined_cancels_and_never_spawns defaultSettings confirmNo
    spawnOk "origin" "" rfl (fun _ => rfl)

/-- Embedding of the pending-commit-message write shared by
`generate_commit_message` (src/tools/git.py lines 118-120),
`improve_commit_message` (lines 206-208) and `get_git_diff` (lines 270-272):
`.git/COMMIT_EDITMSG` is opened with mode "w" (truncate) and the stripped
generated message is written.  The file content is modelled as
`Option String` (`none` = file absent). -/
def write_commit_editmsg (_fileContent : Option String)
    (generated_message : String) : Option String :=
  some (pyStrip generated_message)

/-- C6 (counterexample): writing the generated text `" Add feature\n"` twice
leaves the file content `"Add feature"`, the stripped text — not the
generated text itself, as the claim states. -/
theorem C6_counterexample :
    write_commit_editmsg
        (write_commit_editmsg (some "old content") (" Add feature" ++ "\n"))
        (" Add feature" ++ "\n") ≠ some (" Add feature" ++ "\n") := by
  decide

/-- C6 (amended): the pending-message write is an overwriting write: writing
the same generated text twice leaves the file content equal to writing it
once, namely the trimmed generated text (overwrite, not append). -/
theorem C6_write_is_idempotent_overwrite
    (fileContent : Option String) (text : String) :
    write_commit_editmsg (write_commit_editmsg fileContent text) text =
        write_commit_editmsg fileContent text ∧
      write_commit_editmsg (write_commit_editmsg fileContent text) text =
        some (pyStrip text) :=
  ⟨rfl, rfl⟩

/-- Fixed advisory message returned by `process_request` when a repository
keyword is detected outside a git repository (src/core/llm.py line 124). -/
def notInRepoMsg : String :=
  "⚠️  You" ++ sglQuote ++
    "re not in a Git repository. Please navigate to a Git repository first."

/-- Repository keyword list of src/core/llm.py line 122. -/
def git_keywords : List String :=
  ["git", "commit", "push", "pull", "branch", "status", "diff"]

/-- Containment of one character sequence in another, structurally: `pat`
occurs contiguously somewhere in `s`. -/
def charsContain (s pat : List Char) : Bool :=
  match s with
  | [] => pat.isEmpty
  | c :: rest => pat.isPrefixOf (c :: rest) || charsContain rest pat

/-- Python substring containment `pat in s`. -/
def pyContains (s pat : String) : Bool := charsContain s.data pat.data

/-- Python `str.lower()`, modelled as lowering each character. -/
def pyLower (s : String) : String := String.mk (s.data.map Char.toLower)

/-- Result of one `agent_executor.invoke` call, supplied as an oracle: the
agent run either produced an output string or raised an exception whose
message is `msg`. -/
inductive InvokeResult where
  | output (out : String)
  | raised (msg : String)

/-- Embedding of `OllamaManager.process_request` (src/core/llm.py lines
111-131).  `initialized` is whether `self.agent_executor` is set, `isRepo`
the value of `is_git_repo()`, and `invoke` the agent execution oracle.
Returns the Python result (`Except.error` = an exception raised to the
caller) paired with whether `agent_executor.invoke` was reached. -/
def process_request (initialized : Bool) (isRepo : Bool)
    (invoke : String → InvokeResult) (user_input : String) :
    Except String String × Bool :=
  if initialized = false then
    (Except.error "Agent not initialized", false)
  else if isRepo = false ∧
      git_keywords.any (fun keyword => pyContains (pyLower user_input) keyword) then
    (Except.ok notInRepoMsg, false)
  else
    match invoke user_input with
    | InvokeResult.output out => (Except.ok out, true)
    | InvokeResult.raised m =>
        (Except.ok ("I encountered an error: " ++ m ++
          ". Let me try to help you differently."), true)

/-- C4: for every task text containing one of the repository keywords
(case-insensitively, i.e. after lowering the input) while the working
directory is not a git repository, an initialized `process_request` returns
the fixed advisory message and never reaches `agent_executor.invoke`. -/
theorem C4_non_repo_short_circuits
    (invoke : String → InvokeResult) (user_input : String)
    (hkw : (git_keywords.any
      fun keyword => pyContains (pyLower user_input) keyword) = true) :
    process_request true false invoke user_input =
      (Except.ok notInRepoMsg, false) := by
  simp only [process_request]
  rw [if_neg (by decide), if_pos (by exact ⟨by simp, hkw⟩)]

/-- An agent-execution oracle that always answers with a fixed output. -/
def invokeStub : String → InvokeResult := fun _ => InvokeResult.output "done"

/-- C4 (witness): the theorem applied to the concrete task
"What is my Git STATUS?" (keywords matched case-insensitively) outside a
repository. -/
theorem C4_witness :
    process_request true false invokeStub "What is my Git STATUS?" =
      (Except.ok notInRepoMsg, false) :=
  C4_non_repo_short_circuits invokeStub "What is my Git STATUS?" (by decide)

/-- C8: once the agent is initialized, `process_request` never propagates an
exception to its caller: for every repository state, agent behaviour
(including a raising one) and user input, the result is a returned string —
the except-clause of src/core/llm.py lines 129-131 converts any exception
raised during agent execution into an error string. -/
theorem C8_initialized_never_raises
    (isRepo : Bool) (invoke : String → InvokeResult) (user_input : String) :
    ∃ out, (process_request true isRepo invoke user_input).1 =
      Except.ok out := by
  by_cases hc : isRepo = false ∧
      (git_keywords.any fun keyword => pyContains (pyLower user_input) keyword) = true
  · refine ⟨notInRepoMsg, ?_⟩
    simp only [process_request]
    rw [if_neg (by decide), if_pos hc]
  · cases hi : invoke user_input with
    | output out =>
        refine ⟨out, ?_⟩
        simp only [process_request]
        rw [if_neg (by decide), if_neg hc, hi]
    | raised m =>
        refine ⟨"I encountered an error: " ++ m ++
          ". Let me try to help you differently.", ?_⟩
        simp only [process_request]
        rw [if_neg (by decide), if_neg hc, hi]

/-- Modelled from the spec: a parsed unit of model output (spec section 3,
"Step").  The Reasoning Loop itself is library code (`AgentExecutor`) that
the repository only configures (src/core/llm.py lines 86-93), so it is
embedded from the specification. -/
inductive Step where
  | thought (text : String)
  | action (action_name action_input : String)
  | finalAnswer (text : String)

/-- Modelled from the spec: the Response Parser's result on one model
response — a structured step or a parse error (spec section 4.3). -/
inductive ParseOutcome where
  | step (s : Step)
  | parseError

/-- Modelled from the spec: the degraded best-effort result produced on
iteration-budget exhaustion, constructed from the last scratchpad entry and
clearly marked as not a confirmed final answer (spec section 4.4). -/
def degradedResult (scratchpad : List String) : String :=
  "Iteration budget exhausted; best-effort, not a confirmed final answer: " ++
    (scratchpad.getLast?.getD "")

/-- Modelled from the spec: the Reasoning Loop state machine of spec section
4.4, which is the `AgentExecutor` library code the repository configures with
`max_iterations=settings.max_iterations` but does not contain.  `model` is
the composition of prompt rendering, Model Client call and Response Parser
for the current scratchpad; `exec` runs one registered action.  The loop is
structured on the remaining iteration budget; each cycle consumes one unit of
budget whichever branch it takes.  It returns the final (or degraded) answer
text together with the number of cycles performed. -/
def agentLoop (model : List String → ParseOutcome)
    (exec : String → String → String) :
    Nat → List String → String × Nat
  | 0, scratchpad => (degradedResult scratchpad, 0)
  | budget + 1, scratchpad =>
      match model scratchpad with
      | ParseOutcome.step (Step.finalAnswer t) => (t, 1)
      | ParseOutcome.step (Step.action name input) =>
          let r := agentLoop model exec budget
            (scratchpad ++ ["Observation: " ++ exec name input])
          (r.1, r.2 + 1)
      | ParseOutcome.step (Step.thought t) =>
          let r := agentLoop model exec budget (scratchpad ++ ["Thought: " ++ t])
          (r.1, r.2 + 1)
      | ParseOutcome.parseError =>
          let r := agentLoop model exec budget
            (scratchpad ++
              ["Observation: invalid format, use the required response format"])
          (r.1, r.2 + 1)

/-- Helper for C7: the cycle count of `agentLoop` never exceeds the starting
budget, for every model behaviour. -/
theorem agentLoop_cycles_le (model : List String → ParseOutcome)
    (exec : String → String → String) :
    ∀ (n : Nat) (scratchpad : List String),
      (agentLoop model exec n scratchpad).2 ≤ n := by
  intro n
  induction n with
  | zero => intro scratchpad; simp [agentLoop]
  | succ k ih =>
      intro scratchpad
      cases hm : model scratchpad with
      | step st =>
          cases st with
          | thought t =>
              simp only [agentLoop, hm]
              exact Nat.succ_le_succ (ih _)
          | action name input =>
              simp only [agentLoop, hm]
              exact Nat.succ_le_succ (ih _)
          | finalAnswer t =>
              simp only [agentLoop, hm]
              exact Nat.succ_le_succ (Nat.zero_le k)
      | parseError =>
          simp only [agentLoop, hm]
          exact Nat.succ_le_succ (ih _)

/-- Helper for C7: when the model output fails to parse on every cycle, the
loop still terminates, after exactly the budgeted number of cycles. -/
theorem agentLoop_parseError_exhausts
    (exec : String → String → String) :
    ∀ (n : Nat) (scratchpad : List String),
      (agentLoop (fun _ => ParseOutcome.parseError) exec n scratchpad).2 = n := by
  intro n
  induction n with
  | zero => intro scratchpad; rfl
  | succ k ih =>
      intro scratchpad
      simp only [agentLoop]
      rw [ih]

/-- C7: for every task, the Reasoning Loop configured with
`settings.max_iterations` performs at most `max_iterations` cycles — for
every model behaviour, and exactly `max_iterations` when every cycle yields
a parse error — and then terminates (the loop is a total function of the
remaining budget) rather than looping or raising. -/
theorem C7_loop_bounded_by_max_iterations
    (s : Settings) (model : List String → ParseOutcome)
    (exec : String → String → String) (scratchpad : List String) :
    (agentLoop model exec s.max_iterations scratchpad).2 ≤ s.max_iterations ∧
    (agentLoop (fun _ => ParseOutcome.parseError) exec s.max_iterations
      scratchpad).2 = s.max_iterations :=
  ⟨agentLoop_cycles_le model exec s.max_iterations scratchpad,
   agentLoop_parseError_exhausts exec s.max_iterations scratchpad⟩
